import Mathlib

/-!
Shallow embedding of the serum-dex registry stake-accounting code
(src/registry/src/accounts/member.rs, src/registry/src/accounts/entity.rs,
src/registry/program/src/stake.rs, src/registry/program/src/end_stake_withdrawal.rs)
and proofs about it.

Machine integers are modelled as `Nat` (u64) and `Int` (i64).  The repository's
Cargo profile (not part of the sources here) enables overflow checks, and the
spec states that balance arithmetic must fail loudly on underflow/overflow
rather than wrap; accordingly every u64/i64 arithmetic step is modelled as a
checked operation returning `Option` (`none` = fatal panic/abort).
-/

namespace Serum

/-- 2^64, the number of values of a u64. -/
def U64MOD : Nat := 18446744073709551616

/-- 2^63, used for the i64 range. -/
def I64MOD : Int := 9223372036854775808

/-- Checked u64 addition (`a + b`, panicking on overflow). -/
def u64add (a b : Nat) : Option Nat :=
  if a + b < U64MOD then some (a + b) else none

/-- Checked u64 subtraction (`a - b`, panicking on underflow). -/
def u64sub (a b : Nat) : Option Nat :=
  if b ≤ a then some (a - b) else none

/-- Checked u64 multiplication (`a * b`; also `checked_mul`). -/
def u64mul (a b : Nat) : Option Nat :=
  if a * b < U64MOD then some (a * b) else none

/-- Checked i64 addition. -/
def i64add (a b : Int) : Option Int :=
  if -I64MOD ≤ a + b ∧ a + b < I64MOD then some (a + b) else none

/-- The Rust cast `q as u64` applied to an i64 value (two's-complement
reinterpretation, i.e. reduction mod 2^64). -/
def i64_as_u64 (q : Int) : Nat :=
  (q % (18446744073709551616 : Int)).toNat

/-- serum_pool_schema::Basket — an exchange-rate basket for one pool token.
`quantities` holds i64 values in the Rust source. -/
structure Basket where
  quantities : List Int
deriving Repr, DecidableEq

/-- StakeContext from src/registry/src/accounts/entity.rs: the baskets of the
SRM pool (`basket`, one quantity) and the MSRM pool (`mega_basket`, two
quantities). -/
structure StakeContext where
  basket : Basket
  mega_basket : Basket
deriving Repr, DecidableEq

/-- `StakeContext::default()`. -/
def StakeContext.default : StakeContext :=
  { basket := { quantities := [0] }, mega_basket := { quantities := [0, 0] } }

/-- `StakeContext::srm_equivalent(spt_count, is_mega)` from entity.rs:
`spt_count * quantities[0] + spt_count * quantities[1] * 1_000_000` for the
mega basket, `spt_count * quantities[0]` otherwise.  Indexing out of bounds
and arithmetic overflow are panics (`none`). -/
def StakeContext.srm_equivalent (ctx : StakeContext) (spt_count : Nat)
    (is_mega : Bool) : Option Nat :=
  if is_mega then do
    let q0 ← ctx.mega_basket.quantities.get? 0
    let a ← u64mul spt_count (i64_as_u64 q0)
    let q1 ← ctx.mega_basket.quantities.get? 1
    let b ← u64mul spt_count (i64_as_u64 q1)
    let c ← u64mul b 1000000
    u64add a c
  else do
    let q0 ← ctx.basket.quantities.get? 0
    u64mul spt_count (i64_as_u64 q0)

/-- Registry error codes used by the embedded handlers
(src/registry/src/error.rs). -/
inductive RegistryError where
  | Unauthorized
  | StaleStakeNeedsWithdrawal
  | EntityNotActivated
  | WithdrawalTimelockNotPassed
  | DelegateAccountsNotProvided
  | CheckedFailure
deriving Repr, DecidableEq

/-- The `collect::<Option<Vec<_>>>()` of a fallible map over a list. -/
def optionMapList (f : Int → Option Nat) : List Int → Option (List Nat)
  | [] => some []
  | q :: qs => do
    let y ← f q
    let ys ← optionMapList f qs
    pure (y :: ys)

/-- `StakeContext::basket_quantities(spt_count, mega)` from entity.rs:
multiplies each basket quantity (cast `as u64`) by `spt_count` with
`checked_mul`, collecting to `CheckedFailure` on overflow. -/
def StakeContext.basket_quantities (ctx : StakeContext) (spt_count : Nat)
    (mega : Bool) : Except RegistryError (List Nat) :=
  let basket := if mega then ctx.mega_basket else ctx.basket
  match optionMapList (fun q => u64mul (i64_as_u64 q) spt_count)
      basket.quantities with
  | some qs => Except.ok qs
  | none => Except.error RegistryError.CheckedFailure

/-- Member-side per-book balances (member.rs `Balances`).  The SPT, intent
and cost-basis fields are the ones declared in src/registry/src/accounts/
member.rs.  The two pending-withdrawal fields are modelled from the spec:
Entity::remove/add in entity.rs read `pending_withdrawals` and
`mega_pending_withdrawals` off member book balances, and the spec's ledger
section says the member-side balance record tracks pending-withdrawal
holdings, but the member.rs file included here predates those fields. -/
structure MemberBalances where
  spt_amount : Nat
  spt_mega_amount : Nat
  stake_intent : Nat
  mega_stake_intent : Nat
  cost_basis : Nat
  mega_cost_basis : Nat
  pending_withdrawals : Nat
  mega_pending_withdrawals : Nat
deriving Repr, DecidableEq

/-- All-zero member balances (`Default`). -/
def MemberBalances.zero : MemberBalances :=
  ⟨0, 0, 0, 0, 0, 0, 0, 0⟩

/-- A member book (owner pubkey omitted — inert for these claims). -/
structure Book where
  balances : MemberBalances
deriving Repr, DecidableEq

/-- The `main`/`delegate` book pair of a member. -/
structure MemberBooks where
  main : Book
  delegate : Book
deriving Repr, DecidableEq

/-- Member account (member.rs).  Pubkeys, the watchtower and
`last_active_stake_ctx` are omitted as inert for the claims below. -/
structure Member where
  generation : Nat
  books : MemberBooks
deriving Repr, DecidableEq

/-- The (main, delegate) redemption result of `Member::spt_did_redeem`. -/
structure RedemptionBasket where
  asset : Nat
  mega_asset : Nat
deriving Repr, DecidableEq

/-- `RedemptionBasket::new`. -/
def RedemptionBasket.new (asset mega_asset : Nat) : RedemptionBasket :=
  ⟨asset, mega_asset⟩

/-- Replace the delegate-book balances of a member. -/
def Member.withDelegateBalances (m : Member) (b : MemberBalances) : Member :=
  { m with books := { m.books with delegate := { balances := b } } }

/-- Replace the main-book balances of a member. -/
def Member.withMainBalances (m : Member) (b : MemberBalances) : Member :=
  { m with books := { m.books with main := { balances := b } } }

/-- `Member::spt_did_redeem(spt_amount, purchase_price, mega, delegate)`
from member.rs: splits `purchase_price` between the main and delegate legs
(delegate capped at its cost basis), debits `spt_amount` and cost bases
from the selected book, and returns `(main, delegate)` redemption baskets
together with the updated member.  The leading `assert!` on the length of
`purchase_price` and all checked arithmetic panic via `none`. -/
def Member.spt_did_redeem (m : Member) (spt_amount : Nat)
    (purchase_price : List Nat) (mega delegate : Bool) :
    Option (RedemptionBasket × RedemptionBasket × Member) :=
  if !((mega && purchase_price.length == 2)
      || (!mega && purchase_price.length == 1)) then
    none
  else if delegate then
    if mega then do
      let p0 ← purchase_price.get? 0
      let p1 ← purchase_price.get? 1
      let b := m.books.delegate.balances
      let (asset_cost, asset_excess) :=
        if p0 > b.cost_basis then (b.cost_basis, p0 - b.cost_basis)
        else (p0, 0)
      let (mega_asset_cost, mega_asset_excess) :=
        if p1 > b.mega_cost_basis then (b.mega_cost_basis, p1 - b.mega_cost_basis)
        else (p1, 0)
      let sm ← u64sub b.spt_mega_amount spt_amount
      let cb ← u64sub b.cost_basis asset_cost
      let mcb ← u64sub b.mega_cost_basis mega_asset_cost
      let m' := m.withDelegateBalances
        { b with spt_mega_amount := sm, cost_basis := cb, mega_cost_basis := mcb }
      pure (RedemptionBasket.new asset_excess mega_asset_excess,
            RedemptionBasket.new asset_cost mega_asset_cost, m')
    else do
      let p0 ← purchase_price.get? 0
      let b := m.books.delegate.balances
      let (delegate_asset, asset_excess) :=
        if p0 > b.cost_basis then (b.cost_basis, p0 - b.cost_basis)
        else (p0, 0)
      let sa ← u64sub b.spt_amount spt_amount
      let cb ← u64sub b.cost_basis delegate_asset
      let m' := m.withDelegateBalances
        { b with spt_amount := sa, cost_basis := cb }
      pure (RedemptionBasket.new asset_excess 0,
            RedemptionBasket.new delegate_asset 0, m')
  else
    if mega then do
      let p0 ← purchase_price.get? 0
      let p1 ← purchase_price.get? 1
      let b := m.books.main.balances
      let cost := if p0 ≥ b.cost_basis then b.cost_basis else p0
      let mega_cost := if p1 ≥ b.mega_cost_basis then b.mega_cost_basis else p1
      let sm ← u64sub b.spt_mega_amount spt_amount
      let cb ← u64sub b.cost_basis cost
      let mcb ← u64sub b.mega_cost_basis mega_cost
      let m' := m.withMainBalances
        { b with spt_mega_amount := sm, cost_basis := cb, mega_cost_basis := mcb }
      pure (RedemptionBasket.new p0 p1, RedemptionBasket.new 0 0, m')
    else do
      let p0 ← purchase_price.get? 0
      let b := m.books.main.balances
      let cost := if p0 ≥ b.cost_basis then b.cost_basis else p0
      let sa ← u64sub b.spt_amount spt_amount
      let cb ← u64sub b.cost_basis cost
      let m' := m.withMainBalances { b with spt_amount := sa, cost_basis := cb }
      pure (RedemptionBasket.new p0 0, RedemptionBasket.new 0 0, m')

/-- `Member::stake_is_empty()` from member.rs, exactly as written in the
source: an `||`-chain of `!= 0` tests over the four SPT fields. -/
def Member.stake_is_empty (m : Member) : Bool :=
  (m.books.main.balances.spt_amount != 0)
    || (m.books.main.balances.spt_mega_amount != 0)
    || (m.books.delegate.balances.spt_amount != 0)
    || (m.books.delegate.balances.spt_mega_amount != 0)

/-- `Member::stake_intent_did_withdraw(amount, mega, delegate)` from
member.rs: debits stake-intent and cost-basis on the selected book. -/
def Member.stake_intent_did_withdraw (m : Member) (amount : Nat)
    (mega delegate : Bool) : Option Member :=
  if delegate then
    if mega then do
      let b := m.books.delegate.balances
      let si ← u64sub b.mega_stake_intent amount
      let cb ← u64sub b.mega_cost_basis amount
      pure (m.withDelegateBalances
        { b with mega_stake_intent := si, mega_cost_basis := cb })
    else do
      let b := m.books.delegate.balances
      let si ← u64sub b.stake_intent amount
      let cb ← u64sub b.cost_basis amount
      pure (m.withDelegateBalances
        { b with stake_intent := si, cost_basis := cb })
  else
    if mega then do
      let b := m.books.main.balances
      let si ← u64sub b.mega_stake_intent amount
      let cb ← u64sub b.mega_cost_basis amount
      pure (m.withMainBalances
        { b with mega_stake_intent := si, mega_cost_basis := cb })
    else do
      let b := m.books.main.balances
      let si ← u64sub b.stake_intent amount
      let cb ← u64sub b.cost_basis amount
      pure (m.withMainBalances
        { b with stake_intent := si, cost_basis := cb })

/-- Entity-side cumulative balances (entity.rs `Balances`). -/
structure EntityBalances where
  spt_amount : Nat
  spt_mega_amount : Nat
  pending_withdrawals : Nat
  mega_pending_withdrawals : Nat
  stake_intent : Nat
  mega_stake_intent : Nat
deriving Repr, DecidableEq

/-- All-zero entity balances (`Default`). -/
def EntityBalances.zero : EntityBalances := ⟨0, 0, 0, 0, 0, 0⟩

/-- `EntityState` from entity.rs: the activation finite state machine. -/
inductive EntityState where
  | Inactive
  | PendingDeactivation (deactivation_start_ts timelock : Int)
  | Active
deriving Repr, DecidableEq

/-- Entity account (entity.rs).  Pubkeys and the `initialized` flag are
omitted as inert for the claims below. -/
structure Entity where
  balances : EntityBalances
  generation : Nat
  state : EntityState
deriving Repr, DecidableEq

/-- Registrar configuration fields consumed by the entity FSM
(registrar.rs). -/
structure Registrar where
  reward_activation_threshold : Nat
  withdrawal_timelock : Int
  deactivation_timelock_premium : Int
deriving Repr, DecidableEq

/-- `Registrar::deactivation_timelock()`:
`deactivation_timelock_premium + withdrawal_timelock`. -/
def Registrar.deactivation_timelock (r : Registrar) : Option Int :=
  i64add r.deactivation_timelock_premium r.withdrawal_timelock

/-- The solana `Clock` sysvar (only the field the registry reads). -/
structure Clock where
  unix_timestamp : Int
deriving Repr, DecidableEq

/-- Replace the balances of an entity. -/
def Entity.withBalances (e : Entity) (b : EntityBalances) : Entity :=
  { e with balances := b }

/-- `Entity::add_stake_intent(amount, mega)`. -/
def Entity.add_stake_intent (e : Entity) (amount : Nat) (mega : Bool) :
    Option Entity :=
  if mega then do
    let v ← u64add e.balances.mega_stake_intent amount
    pure (e.withBalances { e.balances with mega_stake_intent := v })
  else do
    let v ← u64add e.balances.stake_intent amount
    pure (e.withBalances { e.balances with stake_intent := v })

/-- `Entity::sub_stake_intent(amount, mega)`. -/
def Entity.sub_stake_intent (e : Entity) (amount : Nat) (mega : Bool) :
    Option Entity :=
  if mega then do
    let v ← u64sub e.balances.mega_stake_intent amount
    pure (e.withBalances { e.balances with mega_stake_intent := v })
  else do
    let v ← u64sub e.balances.stake_intent amount
    pure (e.withBalances { e.balances with stake_intent := v })

/-- `Entity::spt_add(amount, is_mega)`. -/
def Entity.spt_add (e : Entity) (amount : Nat) (is_mega : Bool) :
    Option Entity :=
  if is_mega then do
    let v ← u64add e.balances.spt_mega_amount amount
    pure (e.withBalances { e.balances with spt_mega_amount := v })
  else do
    let v ← u64add e.balances.spt_amount amount
    pure (e.withBalances { e.balances with spt_amount := v })

/-- `Entity::spt_sub(amount, is_mega)`. -/
def Entity.spt_sub (e : Entity) (amount : Nat) (is_mega : Bool) :
    Option Entity :=
  if is_mega then do
    let v ← u64sub e.balances.spt_mega_amount amount
    pure (e.withBalances { e.balances with spt_mega_amount := v })
  else do
    let v ← u64sub e.balances.spt_amount amount
    pure (e.withBalances { e.balances with spt_amount := v })

/-- `Entity::pending_add(amount, is_mega)`. -/
def Entity.pending_add (e : Entity) (amount : Nat) (is_mega : Bool) :
    Option Entity :=
  if is_mega then do
    let v ← u64add e.balances.mega_pending_withdrawals amount
    pure (e.withBalances { e.balances with mega_pending_withdrawals := v })
  else do
    let v ← u64add e.balances.pending_withdrawals amount
    pure (e.withBalances { e.balances with pending_withdrawals := v })

/-- `Entity::pending_sub(amount, is_mega)`. -/
def Entity.pending_sub (e : Entity) (amount : Nat) (is_mega : Bool) :
    Option Entity :=
  if is_mega then do
    let v ← u64sub e.balances.mega_pending_withdrawals amount
    pure (e.withBalances { e.balances with mega_pending_withdrawals := v })
  else do
    let v ← u64sub e.balances.pending_withdrawals amount
    pure (e.withBalances { e.balances with pending_withdrawals := v })

/-- `Entity::transfer_pending_withdrawal(spt_amount, asset_amounts, mega)`:
debits the SPT balance and credits the pending-withdrawal balances by the
per-asset amounts; asserts the length of `asset_amounts`. -/
def Entity.transfer_pending_withdrawal (e : Entity) (spt_amount : Nat)
    (asset_amounts : List Nat) (mega : Bool) : Option Entity :=
  if !((mega && asset_amounts.length == 2)
      || (!mega && asset_amounts.length == 1)) then
    none
  else if mega then do
    let s ← u64sub e.balances.spt_mega_amount spt_amount
    let a0 ← asset_amounts.get? 0
    let p ← u64add e.balances.pending_withdrawals a0
    let a1 ← asset_amounts.get? 1
    let mp ← u64add e.balances.mega_pending_withdrawals a1
    pure (e.withBalances { e.balances with
      spt_mega_amount := s, pending_withdrawals := p,
      mega_pending_withdrawals := mp })
  else do
    let s ← u64sub e.balances.spt_amount spt_amount
    let a0 ← asset_amounts.get? 0
    let p ← u64add e.balances.pending_withdrawals a0
    pure (e.withBalances { e.balances with
      spt_amount := s, pending_withdrawals := p })

/-- `Entity::remove(member)` from entity.rs: subtracts every balance of the
member's main book and then of its delegate book from the entity
aggregates, in source order. -/
def Entity.remove (e : Entity) (m : Member) : Option Entity := do
  let e ← e.sub_stake_intent m.books.main.balances.stake_intent false
  let e ← e.sub_stake_intent m.books.main.balances.mega_stake_intent true
  let e ← e.spt_sub m.books.main.balances.spt_amount false
  let e ← e.spt_sub m.books.main.balances.spt_mega_amount true
  let e ← e.pending_sub m.books.main.balances.pending_withdrawals false
  let e ← e.pending_sub m.books.main.balances.mega_pending_withdrawals true
  let e ← e.sub_stake_intent m.books.delegate.balances.stake_intent false
  let e ← e.sub_stake_intent m.books.delegate.balances.mega_stake_intent true
  let e ← e.spt_sub m.books.delegate.balances.spt_amount false
  let e ← e.spt_sub m.books.delegate.balances.spt_mega_amount true
  let e ← e.pending_sub m.books.delegate.balances.pending_withdrawals false
  e.pending_sub m.books.delegate.balances.mega_pending_withdrawals true

/-- `Entity::add(member)` from entity.rs: adds every balance of the member's
main book and then of its delegate book to the entity aggregates, in source
order. -/
def Entity.add (e : Entity) (m : Member) : Option Entity := do
  let e ← e.add_stake_intent m.books.main.balances.stake_intent false
  let e ← e.add_stake_intent m.books.main.balances.mega_stake_intent true
  let e ← e.spt_add m.books.main.balances.spt_amount false
  let e ← e.spt_add m.books.main.balances.spt_mega_amount true
  let e ← e.pending_add m.books.main.balances.pending_withdrawals false
  let e ← e.pending_add m.books.main.balances.mega_pending_withdrawals true
  let e ← e.add_stake_intent m.books.delegate.balances.stake_intent false
  let e ← e.add_stake_intent m.books.delegate.balances.mega_stake_intent true
  let e ← e.spt_add m.books.delegate.balances.spt_amount false
  let e ← e.spt_add m.books.delegate.balances.spt_mega_amount true
  let e ← e.pending_add m.books.delegate.balances.pending_withdrawals false
  e.pending_add m.books.delegate.balances.mega_pending_withdrawals true

/-- `Entity::stake_intent_equivalent()` (private):
`stake_intent + mega_stake_intent * 1_000_000`. -/
def Entity.stake_intent_equivalent (e : Entity) : Option Nat := do
  let v ← u64mul e.balances.mega_stake_intent 1000000
  u64add e.balances.stake_intent v

/-- `Entity::amount_equivalent(ctx)` (private):
`srm_equivalent(spt_amount, false) + srm_equivalent(spt_mega_amount, true)`. -/
def Entity.amount_equivalent (e : Entity) (ctx : StakeContext) : Option Nat := do
  let a ← ctx.srm_equivalent e.balances.spt_amount false
  let b ← ctx.srm_equivalent e.balances.spt_mega_amount true
  u64add a b

/-- `Entity::activation_amount(ctx)`:
`amount_equivalent(ctx) + stake_intent_equivalent()`. -/
def Entity.activation_amount (e : Entity) (ctx : StakeContext) : Option Nat := do
  let a ← e.amount_equivalent ctx
  let b ← e.stake_intent_equivalent
  u64add a b

/-- `Entity::meets_activation_requirements(ctx, registrar)`:
`activation_amount(ctx) >= reward_activation_threshold && spt_mega_amount >= 1`. -/
def Entity.meets_activation_requirements (e : Entity) (ctx : StakeContext)
    (registrar : Registrar) : Option Bool := do
  let a ← e.activation_amount ctx
  pure (decide (a ≥ registrar.reward_activation_threshold)
    && decide (e.balances.spt_mega_amount ≥ 1))

/-- `Entity::transition_activation_if_needed(ctx, registrar, clock)` from
entity.rs, exactly as written: Inactive becomes Active (incrementing
`generation`) when the activation requirements hold; PendingDeactivation
becomes Inactive once `clock.unix_timestamp > deactivation_start_ts +
timelock` and otherwise stays put; Active becomes PendingDeactivation when
the requirements no longer hold. -/
def Entity.transition_activation_if_needed (e : Entity) (ctx : StakeContext)
    (registrar : Registrar) (clock : Clock) : Option Entity :=
  match e.state with
  | EntityState.Inactive => do
    let b ← e.meets_activation_requirements ctx registrar
    if b then do
      let g ← u64add e.generation 1
      pure { e with state := EntityState.Active, generation := g }
    else
      pure e
  | EntityState.PendingDeactivation deactivation_start_ts timelock => do
    let d ← i64add deactivation_start_ts timelock
    if clock.unix_timestamp > d then
      pure { e with state := EntityState.Inactive }
    else
      pure e
  | EntityState.Active => do
    let b ← e.meets_activation_requirements ctx registrar
    if !b then do
      let tl ← registrar.deactivation_timelock
      pure { e with state :=
        EntityState.PendingDeactivation clock.unix_timestamp tl }
    else
      pure e

/-- The stake-specific generation check of `access_control` in
src/registry/program/src/stake.rs (lines 172-178), exactly as written:
reject with `StaleStakeNeedsWithdrawal` when the member's generation
differs from the entity's and `!member.stake_is_empty()`. -/
def stake_generation_check (member : Member) (entity : Entity) :
    Except RegistryError Unit :=
  if member.generation ≠ entity.generation then
    if !member.stake_is_empty then
      Except.error RegistryError.StaleStakeNeedsWithdrawal
    else
      Except.ok ()
  else
    Except.ok ()

/-- The per-leg payment of a `PendingWithdrawal` (pending_withdrawal.rs);
recipient pubkeys omitted as inert. -/
structure PendingPayment where
  asset_amount : Nat
  mega_asset_amount : Nat
deriving Repr, DecidableEq

/-- `PendingWithdrawal` receipt (pending_withdrawal.rs); pubkeys and
timestamps not read by end_stake_withdrawal are omitted. -/
structure PendingWithdrawal where
  burned : Bool
  end_ts : Int
  payment : PendingPayment
  delegate_payment : PendingPayment
deriving Repr, DecidableEq

/-- The EndStakeWithdrawal-specific block of `access_control` in
src/registry/program/src/end_stake_withdrawal.rs (lines 139-144): fail with
`WithdrawalTimelockNotPassed` when `clock.unix_timestamp < end_ts`. -/
def end_stake_withdrawal_access_control (clock : Clock)
    (pending_withdrawal : PendingWithdrawal) : Except RegistryError Unit :=
  if clock.unix_timestamp < pending_withdrawal.end_ts then
    Except.error RegistryError.WithdrawalTimelockNotPassed
  else
    Except.ok ()

/-- `state_transition` of end_stake_withdrawal.rs: pays out each non-zero
leg (requiring delegate destination accounts for a non-zero delegate leg —
they are supplied iff the handler's `delegate` flag is set) and then burns
the receipt. -/
def end_stake_withdrawal_state_transition (pw : PendingWithdrawal)
    (delegate : Bool) : Except RegistryError PendingWithdrawal :=
  if pw.delegate_payment.asset_amount > 0 && !delegate then
    Except.error RegistryError.DelegateAccountsNotProvided
  else if pw.delegate_payment.mega_asset_amount > 0 && !delegate then
    Except.error RegistryError.DelegateAccountsNotProvided
  else
    Except.ok { pw with burned := true }

/-- `handler` of end_stake_withdrawal.rs, restricted to the
pending-withdrawal state: runs `access_control` first and only on success
runs `state_transition`; an error aborts the transaction leaving the
receipt unchanged.  Returns the result together with the final receipt
state. -/
def end_stake_withdrawal_handler (clock : Clock) (pw : PendingWithdrawal)
    (delegate : Bool) : Except RegistryError Unit × PendingWithdrawal :=
  match end_stake_withdrawal_access_control clock pw with
  | Except.error e => (Except.error e, pw)
  | Except.ok _ =>
    match end_stake_withdrawal_state_transition pw delegate with
    | Except.error e => (Except.error e, pw)
    | Except.ok pw' => (Except.ok (), pw')

/-! ## Theorems -/

/-- The length guard of `spt_did_redeem`: a successful call saw a
purchase-price vector of length 2 in the mega case and 1 otherwise. -/
lemma spt_did_redeem_length {m : Member} {spt : Nat} {pp : List Nat}
    {mega delegate : Bool} {x : RedemptionBasket × RedemptionBasket × Member}
    (h : m.spt_did_redeem spt pp mega delegate = some x) :
    (mega = true ∧ pp.length = 2) ∨ (mega = false ∧ pp.length = 1) := by
  by_cases hg : ((mega && pp.length == 2) || (!mega && pp.length == 1)) = true
  · cases mega <;> simp_all
  · rw [Member.spt_did_redeem] at h
    simp only [hg] at h
    simp at h

/-- Closed form of the delegate/mega branch of `spt_did_redeem`: the
delegate leg receives each purchase-price component capped at the
corresponding delegate cost basis, the main leg the (truncated) excess. -/
lemma spt_did_redeem_delegate_mega (m : Member) (spt p0 p1 : Nat) :
    m.spt_did_redeem spt [p0, p1] true true =
      if spt ≤ m.books.delegate.balances.spt_mega_amount then
        some (RedemptionBasket.new (p0 - m.books.delegate.balances.cost_basis)
                (p1 - m.books.delegate.balances.mega_cost_basis),
              RedemptionBasket.new (min p0 m.books.delegate.balances.cost_basis)
                (min p1 m.books.delegate.balances.mega_cost_basis),
              m.withDelegateBalances { m.books.delegate.balances with
                spt_mega_amount := m.books.delegate.balances.spt_mega_amount - spt,
                cost_basis := m.books.delegate.balances.cost_basis
                  - min p0 m.books.delegate.balances.cost_basis,
                mega_cost_basis := m.books.delegate.balances.mega_cost_basis
                  - min p1 m.books.delegate.balances.mega_cost_basis })
      else none := by
  simp only [Member.spt_did_redeem, u64sub, List.get?, List.length_cons,
    List.length_nil]
  norm_num
  split_ifs <;>
    simp_all [RedemptionBasket.new, Member.withDelegateBalances,
      Member.withMainBalances, Member.mk.injEq, MemberBooks.mk.injEq,
      Book.mk.injEq, MemberBalances.mk.injEq, RedemptionBasket.mk.injEq,
      Prod.mk.injEq] <;>
    omega

/-- Closed form of the delegate/non-mega branch of `spt_did_redeem`. -/
lemma spt_did_redeem_delegate_srm (m : Member) (spt p0 : Nat) :
    m.spt_did_redeem spt [p0] false true =
      if spt ≤ m.books.delegate.balances.spt_amount then
        some (RedemptionBasket.new (p0 - m.books.delegate.balances.cost_basis) 0,
              RedemptionBasket.new (min p0 m.books.delegate.balances.cost_basis) 0,
              m.withDelegateBalances { m.books.delegate.balances with
                spt_amount := m.books.delegate.balances.spt_amount - spt,
                cost_basis := m.books.delegate.balances.cost_basis
                  - min p0 m.books.delegate.balances.cost_basis })
      else none := by
  simp only [Member.spt_did_redeem, u64sub, List.get?, List.length_cons,
    List.length_nil]
  norm_num
  split_ifs <;>
    simp_all [RedemptionBasket.new, Member.withDelegateBalances,
      Member.withMainBalances, Member.mk.injEq, MemberBooks.mk.injEq,
      Book.mk.injEq, MemberBalances.mk.injEq, RedemptionBasket.mk.injEq,
      Prod.mk.injEq] <;>
    omega

/-- Closed form of the main-book/mega branch of `spt_did_redeem`: the main
leg receives the full purchase price, the delegate leg nothing. -/
lemma spt_did_redeem_main_mega (m : Member) (spt p0 p1 : Nat) :
    m.spt_did_redeem spt [p0, p1] true false =
      if spt ≤ m.books.main.balances.spt_mega_amount then
        some (RedemptionBasket.new p0 p1, RedemptionBasket.new 0 0,
              m.withMainBalances { m.books.main.balances with
                spt_mega_amount := m.books.main.balances.spt_mega_amount - spt,
                cost_basis := m.books.main.balances.cost_basis
                  - min p0 m.books.main.balances.cost_basis,
                mega_cost_basis := m.books.main.balances.mega_cost_basis
                  - min p1 m.books.main.balances.mega_cost_basis })
      else none := by
  simp only [Member.spt_did_redeem, u64sub, List.get?, List.length_cons,
    List.length_nil]
  norm_num
  split_ifs <;>
    simp_all [RedemptionBasket.new, Member.withDelegateBalances,
      Member.withMainBalances, Member.mk.injEq, MemberBooks.mk.injEq,
      Book.mk.injEq, MemberBalances.mk.injEq, RedemptionBasket.mk.injEq,
      Prod.mk.injEq] <;>
    omega

/-- Closed form of the main-book/non-mega branch of `spt_did_redeem`. -/
lemma spt_did_redeem_main_srm (m : Member) (spt p0 : Nat) :
    m.spt_did_redeem spt [p0] false false =
      if spt ≤ m.books.main.balances.spt_amount then
        some (RedemptionBasket.new p0 0, RedemptionBasket.new 0 0,
              m.withMainBalances { m.books.main.balances with
                spt_amount := m.books.main.balances.spt_amount - spt,
                cost_basis := m.books.main.balances.cost_basis
                  - min p0 m.books.main.balances.cost_basis })
      else none := by
  simp only [Member.spt_did_redeem, u64sub, List.get?, List.length_cons,
    List.length_nil]
  norm_num
  split_ifs <;>
    simp_all [RedemptionBasket.new, Member.withDelegateBalances,
      Member.withMainBalances, Member.mk.injEq, MemberBooks.mk.injEq,
      Book.mk.injEq, MemberBalances.mk.injEq, RedemptionBasket.mk.injEq,
      Prod.mk.injEq] <;>
    omega

/-- C1: every successful `Member::spt_did_redeem` call splits the purchase
price exactly: the main and delegate legs sum to `purchase_price[0]` for
the primary asset, and in the mega case to `purchase_price[1]` for the mega
asset — the split neither creates nor destroys value. -/
theorem spt_did_redeem_conservation
    (m : Member) (spt : Nat) (pp : List Nat) (mega delegate : Bool)
    (mainb delb : RedemptionBasket) (m' : Member)
    (h : m.spt_did_redeem spt pp mega delegate = some (mainb, delb, m')) :
    mainb.asset + delb.asset = pp.getD 0 0 ∧
      (mega = true → mainb.mega_asset + delb.mega_asset = pp.getD 1 0) := by
  rcases spt_did_redeem_length h with ⟨hm, hl⟩ | ⟨hm, hl⟩ <;> subst hm
  · obtain ⟨p0, p1, rfl⟩ := List.length_eq_two.mp hl
    cases delegate
    · rw [spt_did_redeem_main_mega] at h
      split at h
      · obtain ⟨h1, h2, h3⟩ := by simpa using h
        subst h1 h2
        simp [RedemptionBasket.new]
      · exact Option.noConfusion h
    · rw [spt_did_redeem_delegate_mega] at h
      split at h
      · obtain ⟨h1, h2, h3⟩ := by simpa using h
        subst h1 h2
        simp only [RedemptionBasket.new, List.getD, List.get?, Option.getD_some]
        constructor
        · omega
        · intro
          omega
      · exact Option.noConfusion h
  · obtain ⟨p0, rfl⟩ := List.length_eq_one.mp hl
    cases delegate
    · rw [spt_did_redeem_main_srm] at h
      split at h
      · obtain ⟨h1, h2, h3⟩ := by simpa using h
        subst h1 h2
        simp [RedemptionBasket.new]
      · exact Option.noConfusion h
    · rw [spt_did_redeem_delegate_srm] at h
      split at h
      · obtain ⟨h1, h2, h3⟩ := by simpa using h
        subst h1 h2
        simp only [RedemptionBasket.new, List.getD, List.get?, Option.getD_some]
        constructor
        · omega
        · intro hfalse
          exact absurd hfalse (by decide)
      · exact Option.noConfusion h

/-- Witness for `spt_did_redeem_conservation` at a concrete delegate mega
redemption. -/
theorem spt_did_redeem_conservation_witness :
    (⟨5, 7⟩ : RedemptionBasket).asset + (⟨3, 2⟩ : RedemptionBasket).asset
        = [8, 9].getD 0 0 ∧
      (true = true → (⟨5, 7⟩ : RedemptionBasket).mega_asset
        + (⟨3, 2⟩ : RedemptionBasket).mega_asset = [8, 9].getD 1 0) :=
  spt_did_redeem_conservation
    ⟨0, ⟨⟨MemberBalances.zero⟩, ⟨{ MemberBalances.zero with
      spt_mega_amount := 1, cost_basis := 3, mega_cost_basis := 2 }⟩⟩⟩
    1 [8, 9] true true ⟨5, 7⟩ ⟨3, 2⟩
    ⟨0, ⟨⟨MemberBalances.zero⟩, ⟨{ MemberBalances.zero with
      spt_mega_amount := 0, cost_basis := 0, mega_cost_basis := 0 }⟩⟩⟩
    (by decide)

/-- C5: in every successful `Member::spt_did_redeem` call the delegate leg
is `min(purchase_price, remaining delegate cost basis)` per asset and the
main leg receives exactly the excess above that cap; for a main-book
redemption the delegate leg is zero. -/
theorem spt_did_redeem_delegate_cap
    (m : Member) (spt : Nat) (pp : List Nat) (mega delegate : Bool)
    (mainb delb : RedemptionBasket) (m' : Member)
    (h : m.spt_did_redeem spt pp mega delegate = some (mainb, delb, m')) :
    (delegate = true →
      delb.asset = min (pp.getD 0 0) m.books.delegate.balances.cost_basis ∧
      mainb.asset = pp.getD 0 0
        - min (pp.getD 0 0) m.books.delegate.balances.cost_basis ∧
      (mega = true →
        delb.mega_asset
          = min (pp.getD 1 0) m.books.delegate.balances.mega_cost_basis ∧
        mainb.mega_asset = pp.getD 1 0
          - min (pp.getD 1 0) m.books.delegate.balances.mega_cost_basis) ∧
      (mega = false → delb.mega_asset = 0)) ∧
    (delegate = false → delb.asset = 0 ∧ delb.mega_asset = 0) := by
  rcases spt_did_redeem_length h with ⟨hm, hl⟩ | ⟨hm, hl⟩ <;> subst hm
  · obtain ⟨p0, p1, rfl⟩ := List.length_eq_two.mp hl
    cases delegate
    · rw [spt_did_redeem_main_mega] at h
      split at h
      · obtain ⟨h1, h2, h3⟩ := by simpa using h
        subst h1 h2
        exact ⟨fun hf => absurd hf (by decide),
               fun _ => ⟨rfl, rfl⟩⟩
      · exact Option.noConfusion h
    · rw [spt_did_redeem_delegate_mega] at h
      split at h
      · obtain ⟨h1, h2, h3⟩ := by simpa using h
        subst h1 h2
        refine ⟨fun _ => ⟨?_, ?_, fun _ => ⟨?_, ?_⟩,
            fun hf => absurd hf (by decide)⟩,
          fun hf => absurd hf (by decide)⟩ <;>
          simp only [RedemptionBasket.new, List.getD, List.get?,
            Option.getD_some] <;>
          omega
      · exact Option.noConfusion h
  · obtain ⟨p0, rfl⟩ := List.length_eq_one.mp hl
    cases delegate
    · rw [spt_did_redeem_main_srm] at h
      split at h
      · obtain ⟨h1, h2, h3⟩ := by simpa using h
        subst h1 h2
        exact ⟨fun hf => absurd hf (by decide),
               fun _ => ⟨rfl, rfl⟩⟩
      · exact Option.noConfusion h
    · rw [spt_did_redeem_delegate_srm] at h
      split at h
      · obtain ⟨h1, h2, h3⟩ := by simpa using h
        subst h1 h2
        refine ⟨fun _ => ⟨?_, ?_, fun hf => absurd hf (by decide),
            fun _ => ?_⟩,
          fun hf => absurd hf (by decide)⟩ <;>
          simp only [RedemptionBasket.new, List.getD, List.get?,
            Option.getD_some] <;>
          omega
      · exact Option.noConfusion h

/-- Witness for `spt_did_redeem_delegate_cap` at a concrete delegate
redemption whose purchase price exceeds the delegate cost basis. -/
theorem spt_did_redeem_delegate_cap_witness :
    (true = true →
      (⟨3, 2⟩ : RedemptionBasket).asset = min ([8, 9].getD 0 0) 3 ∧
      (⟨5, 7⟩ : RedemptionBasket).asset = [8, 9].getD 0 0 - min ([8, 9].getD 0 0) 3 ∧
      (true = true →
        (⟨3, 2⟩ : RedemptionBasket).mega_asset = min ([8, 9].getD 1 0) 2 ∧
        (⟨5, 7⟩ : RedemptionBasket).mega_asset
          = [8, 9].getD 1 0 - min ([8, 9].getD 1 0) 2) ∧
      (true = false → (⟨3, 2⟩ : RedemptionBasket).mega_asset = 0)) ∧
    (true = false →
      (⟨3, 2⟩ : RedemptionBasket).asset = 0
        ∧ (⟨3, 2⟩ : RedemptionBasket).mega_asset = 0) :=
  spt_did_redeem_delegate_cap
    ⟨0, ⟨⟨MemberBalances.zero⟩, ⟨{ MemberBalances.zero with
      spt_mega_amount := 1, cost_basis := 3, mega_cost_basis := 2 }⟩⟩⟩
    1 [8, 9] true true ⟨5, 7⟩ ⟨3, 2⟩
    ⟨0, ⟨⟨MemberBalances.zero⟩, ⟨{ MemberBalances.zero with
      spt_mega_amount := 0, cost_basis := 0, mega_cost_basis := 0 }⟩⟩⟩
    (by decide)

/-- Eliminate `(if c then some x else none) = some b`. -/
lemma opt_ite_some {α : Type} {c : Prop} [Decidable c] {x b : α}
    (h : (if c then some x else none) = some b) : c ∧ x = b := by
  split at h <;> simp_all

/-- Eliminate a successful `Option.bind`. -/
lemma bind_some_elim {α β : Type} {o : Option α} {f : α → Option β} {b : β}
    (h : (o >>= f) = some b) : ∃ a, o = some a ∧ f a = some b := by
  cases o <;> simp_all

/-- Closed form of `sub_stake_intent` for the primary asset. -/
lemma sub_stake_intent_srm (e : Entity) (a : Nat) :
    e.sub_stake_intent a false =
      if a ≤ e.balances.stake_intent then
        some (e.withBalances { e.balances with
          stake_intent := e.balances.stake_intent - a })
      else none := by
  simp only [Entity.sub_stake_intent, u64sub, Bool.false_eq_true, if_false]
  split_ifs <;> rfl

/-- Closed form of `sub_stake_intent` for the mega asset. -/
lemma sub_stake_intent_msrm (e : Entity) (a : Nat) :
    e.sub_stake_intent a true =
      if a ≤ e.balances.mega_stake_intent then
        some (e.withBalances { e.balances with
          mega_stake_intent := e.balances.mega_stake_intent - a })
      else none := by
  simp only [Entity.sub_stake_intent, u64sub, if_true]
  split_ifs <;> rfl

/-- Closed form of `spt_sub` for the primary asset. -/
lemma spt_sub_srm (e : Entity) (a : Nat) :
    e.spt_sub a false =
      if a ≤ e.balances.spt_amount then
        some (e.withBalances { e.balances with
          spt_amount := e.balances.spt_amount - a })
      else none := by
  simp only [Entity.spt_sub, u64sub, Bool.false_eq_true, if_false]
  split_ifs <;> rfl

/-- Closed form of `spt_sub` for the mega asset. -/
lemma spt_sub_msrm (e : Entity) (a : Nat) :
    e.spt_sub a true =
      if a ≤ e.balances.spt_mega_amount then
        some (e.withBalances { e.balances with
          spt_mega_amount := e.balances.spt_mega_amount - a })
      else none := by
  simp only [Entity.spt_sub, u64sub, if_true]
  split_ifs <;> rfl

/-- Closed form of `pending_sub` for the primary asset. -/
lemma pending_sub_srm (e : Entity) (a : Nat) :
    e.pending_sub a false =
      if a ≤ e.balances.pending_withdrawals then
        some (e.withBalances { e.balances with
          pending_withdrawals := e.balances.pending_withdrawals - a })
      else none := by
  simp only [Entity.pending_sub, u64sub, Bool.false_eq_true, if_false]
  split_ifs <;> rfl

/-- Closed form of `pending_sub` for the mega asset. -/
lemma pending_sub_msrm (e : Entity) (a : Nat) :
    e.pending_sub a true =
      if a ≤ e.balances.mega_pending_withdrawals then
        some (e.withBalances { e.balances with
          mega_pending_withdrawals := e.balances.mega_pending_withdrawals - a })
      else none := by
  simp only [Entity.pending_sub, u64sub, if_true]
  split_ifs <;> rfl

/-- Closed form of `add_stake_intent` for the primary asset. -/
lemma add_stake_intent_srm (e : Entity) (a : Nat) :
    e.add_stake_intent a false =
      if e.balances.stake_intent + a < U64MOD then
        some (e.withBalances { e.balances with
          stake_intent := e.balances.stake_intent + a })
      else none := by
  simp only [Entity.add_stake_intent, u64add, Bool.false_eq_true, if_false]
  split_ifs <;> rfl

/-- Closed form of `add_stake_intent` for the mega asset. -/
lemma add_stake_intent_msrm (e : Entity) (a : Nat) :
    e.add_stake_intent a true =
      if e.balances.mega_stake_intent + a < U64MOD then
        some (e.withBalances { e.balances with
          mega_stake_intent := e.balances.mega_stake_intent + a })
      else none := by
  simp only [Entity.add_stake_intent, u64add, if_true]
  split_ifs <;> rfl

/-- Closed form of `spt_add` for the primary asset. -/
lemma spt_add_srm (e : Entity) (a : Nat) :
    e.spt_add a false =
      if e.balances.spt_amount + a < U64MOD then
        some (e.withBalances { e.balances with
          spt_amount := e.balances.spt_amount + a })
      else none := by
  simp only [Entity.spt_add, u64add, Bool.false_eq_true, if_false]
  split_ifs <;> rfl

/-- Closed form of `spt_add` for the mega asset. -/
lemma spt_add_msrm (e : Entity) (a : Nat) :
    e.spt_add a true =
      if e.balances.spt_mega_amount + a < U64MOD then
        some (e.withBalances { e.balances with
          spt_mega_amount := e.balances.spt_mega_amount + a })
      else none := by
  simp only [Entity.spt_add, u64add, if_true]
  split_ifs <;> rfl

/-- Closed form of `pending_add` for the primary asset. -/
lemma pending_add_srm (e : Entity) (a : Nat) :
    e.pending_add a false =
      if e.balances.pending_withdrawals + a < U64MOD then
        some (e.withBalances { e.balances with
          pending_withdrawals := e.balances.pending_withdrawals + a })
      else none := by
  simp only [Entity.pending_add, u64add, Bool.false_eq_true, if_false]
  split_ifs <;> rfl

/-- Closed form of `pending_add` for the mega asset. -/
lemma pending_add_msrm (e : Entity) (a : Nat) :
    e.pending_add a true =
      if e.balances.mega_pending_withdrawals + a < U64MOD then
        some (e.withBalances { e.balances with
          mega_pending_withdrawals := e.balances.mega_pending_withdrawals + a })
      else none := by
  simp only [Entity.pending_add, u64add, if_true]
  split_ifs <;> rfl

/-- Closed form of `transfer_pending_withdrawal` for the primary asset. -/
lemma transfer_pending_withdrawal_srm (e : Entity) (spt a0 : Nat) :
    e.transfer_pending_withdrawal spt [a0] false =
      if spt ≤ e.balances.spt_amount then
        if e.balances.pending_withdrawals + a0 < U64MOD then
          some (e.withBalances { e.balances with
            spt_amount := e.balances.spt_amount - spt,
            pending_withdrawals := e.balances.pending_withdrawals + a0 })
        else none
      else none := by
  simp only [Entity.transfer_pending_withdrawal, u64sub, u64add, List.get?,
    List.length_cons, List.length_nil]
  norm_num
  split_ifs <;> rfl

/-- Closed form of `transfer_pending_withdrawal` for the mega pool. -/
lemma transfer_pending_withdrawal_msrm (e : Entity) (spt a0 a1 : Nat) :
    e.transfer_pending_withdrawal spt [a0, a1] true =
      if spt ≤ e.balances.spt_mega_amount then
        if e.balances.pending_withdrawals + a0 < U64MOD then
          if e.balances.mega_pending_withdrawals + a1 < U64MOD then
            some (e.withBalances { e.balances with
              spt_mega_amount := e.balances.spt_mega_amount - spt,
              pending_withdrawals := e.balances.pending_withdrawals + a0,
              mega_pending_withdrawals :=
                e.balances.mega_pending_withdrawals + a1 })
          else none
        else none
      else none := by
  simp only [Entity.transfer_pending_withdrawal, u64sub, u64add, List.get?,
    List.length_cons, List.length_nil]
  norm_num
  split_ifs <;> rfl

/-- The stake-intent balance of the book selected by `mega`/`delegate`. -/
def Member.intent_of (m : Member) (mega delegate : Bool) : Nat :=
  if delegate then
    if mega then m.books.delegate.balances.mega_stake_intent
    else m.books.delegate.balances.stake_intent
  else
    if mega then m.books.main.balances.mega_stake_intent
    else m.books.main.balances.stake_intent

/-- The cost basis of the book selected by `mega`/`delegate`. -/
def Member.cost_of (m : Member) (mega delegate : Bool) : Nat :=
  if delegate then
    if mega then m.books.delegate.balances.mega_cost_basis
    else m.books.delegate.balances.cost_basis
  else
    if mega then m.books.main.balances.mega_cost_basis
    else m.books.main.balances.cost_basis

/-- The entity stake-intent balance selected by `mega`. -/
def Entity.stake_intent_of (e : Entity) (mega : Bool) : Nat :=
  if mega then e.balances.mega_stake_intent else e.balances.stake_intent

/-- The entity SPT balance selected by `mega`. -/
def Entity.spt_of (e : Entity) (mega : Bool) : Nat :=
  if mega then e.balances.spt_mega_amount else e.balances.spt_amount

/-- The entity pending-withdrawal balance selected by `mega`. -/
def Entity.pending_of (e : Entity) (mega : Bool) : Nat :=
  if mega then e.balances.mega_pending_withdrawals
  else e.balances.pending_withdrawals

/-- C6: the bookkeeping operations use checked u64 arithmetic — any
subtraction whose amount exceeds the stored balance fails fatally (`none`)
rather than wrapping, a successful subtraction stores the exact difference,
and a successful addition stores the exact (in-range) sum; the stored
balance never wraps modulo 2^64. -/
theorem checked_bookkeeping (e : Entity) (m : Member) (a spt a0 a1 : Nat)
    (mg dl : Bool) :
    (e.stake_intent_of mg < a → e.sub_stake_intent a mg = none) ∧
    (∀ e', e.sub_stake_intent a mg = some e' →
      e'.stake_intent_of mg + a = e.stake_intent_of mg) ∧
    (e.spt_of mg < a → e.spt_sub a mg = none) ∧
    (∀ e', e.spt_sub a mg = some e' → e'.spt_of mg + a = e.spt_of mg) ∧
    (e.pending_of mg < a → e.pending_sub a mg = none) ∧
    (∀ e', e.pending_sub a mg = some e' →
      e'.pending_of mg + a = e.pending_of mg) ∧
    (∀ e', e.add_stake_intent a mg = some e' →
      e'.stake_intent_of mg = e.stake_intent_of mg + a
        ∧ e.stake_intent_of mg + a < U64MOD) ∧
    (∀ e', e.spt_add a mg = some e' →
      e'.spt_of mg = e.spt_of mg + a ∧ e.spt_of mg + a < U64MOD) ∧
    (∀ e', e.pending_add a mg = some e' →
      e'.pending_of mg = e.pending_of mg + a
        ∧ e.pending_of mg + a < U64MOD) ∧
    (e.spt_of mg < spt →
      ∀ aa : List Nat, e.transfer_pending_withdrawal spt aa mg = none) ∧
    (∀ e', e.transfer_pending_withdrawal spt
        (if mg then [a0, a1] else [a0]) mg = some e' →
      e'.spt_of mg + spt = e.spt_of mg) ∧
    (m.intent_of mg dl < a ∨ m.cost_of mg dl < a →
      m.stake_intent_did_withdraw a mg dl = none) ∧
    (∀ m', m.stake_intent_did_withdraw a mg dl = some m' →
      m'.intent_of mg dl + a = m.intent_of mg dl
        ∧ m'.cost_of mg dl + a = m.cost_of mg dl) := by
  refine ⟨?_, ?_, ?_, ?_, ?_, ?_, ?_, ?_, ?_, ?_, ?_, ?_, ?_⟩
  · intro h
    cases mg <;> simp [Entity.stake_intent_of] at h <;>
      simp [sub_stake_intent_srm, sub_stake_intent_msrm] <;> omega
  · intro e' h
    cases mg <;>
      [rw [sub_stake_intent_srm] at h; rw [sub_stake_intent_msrm] at h] <;>
      obtain ⟨hc, rfl⟩ := opt_ite_some h <;>
      simp [Entity.stake_intent_of, Entity.withBalances] <;> omega
  · intro h
    cases mg <;> simp [Entity.spt_of] at h <;>
      simp [spt_sub_srm, spt_sub_msrm] <;> omega
  · intro e' h
    cases mg <;> [rw [spt_sub_srm] at h; rw [spt_sub_msrm] at h] <;>
      obtain ⟨hc, rfl⟩ := opt_ite_some h <;>
      simp [Entity.spt_of, Entity.withBalances] <;> omega
  · intro h
    cases mg <;> simp [Entity.pending_of] at h <;>
      simp [pending_sub_srm, pending_sub_msrm] <;> omega
  · intro e' h
    cases mg <;> [rw [pending_sub_srm] at h; rw [pending_sub_msrm] at h] <;>
      obtain ⟨hc, rfl⟩ := opt_ite_some h <;>
      simp [Entity.pending_of, Entity.withBalances] <;> omega
  · intro e' h
    cases mg <;>
      [rw [add_stake_intent_srm] at h; rw [add_stake_intent_msrm] at h] <;>
      obtain ⟨hc, rfl⟩ := opt_ite_some h <;>
      simp [Entity.stake_intent_of, Entity.withBalances] <;> omega
  · intro e' h
    cases mg <;> [rw [spt_add_srm] at h; rw [spt_add_msrm] at h] <;>
      obtain ⟨hc, rfl⟩ := opt_ite_some h <;>
      simp [Entity.spt_of, Entity.withBalances] <;> omega
  · intro e' h
    cases mg <;> [rw [pending_add_srm] at h; rw [pending_add_msrm] at h] <;>
      obtain ⟨hc, rfl⟩ := opt_ite_some h <;>
      simp [Entity.pending_of, Entity.withBalances] <;> omega
  · intro h aa
    cases mg <;> simp [Entity.spt_of] at h <;>
      rw [Entity.transfer_pending_withdrawal] <;> split <;>
      first
        | rfl
        | simp [u64sub, Nat.not_le.mpr h]
  · intro e' h
    cases mg
    · rw [if_neg (by decide), transfer_pending_withdrawal_srm] at h
      split at h
      · obtain ⟨hc, rfl⟩ := opt_ite_some h
        simp [Entity.spt_of, Entity.withBalances]
        omega
      · exact Option.noConfusion h
    · rw [if_pos rfl, transfer_pending_withdrawal_msrm] at h
      split at h
      · split at h
        · obtain ⟨hc, rfl⟩ := opt_ite_some h
          simp [Entity.spt_of, Entity.withBalances]
          omega
        · exact Option.noConfusion h
      · exact Option.noConfusion h
  · intro h
    cases mg <;> cases dl <;>
      simp [Member.intent_of, Member.cost_of] at h <;>
      rcases h with h | h <;>
      simp [Member.stake_intent_did_withdraw, u64sub, Nat.not_le.mpr h]
  · intro m' h
    cases mg <;> cases dl <;>
      rw [Member.stake_intent_did_withdraw] at h <;>
      [rw [if_neg (by decide), if_neg (by decide)] at h;
       rw [if_pos rfl, if_neg (by decide)] at h;
       rw [if_neg (by decide), if_pos rfl] at h;
       rw [if_pos rfl, if_pos rfl] at h] <;>
      obtain ⟨si, hsi, h⟩ := bind_some_elim h <;>
      obtain ⟨cb, hcb, h⟩ := bind_some_elim h <;>
      rw [u64sub] at hsi <;> rw [u64sub] at hcb <;>
      obtain ⟨hc1, rfl⟩ := opt_ite_some hsi <;>
      obtain ⟨hc2, rfl⟩ := opt_ite_some hcb <;>
      injection h with hm <;> subst hm <;>
      simp [Member.intent_of, Member.cost_of, Member.withMainBalances,
        Member.withDelegateBalances] <;>
      omega

/-- Witness for `checked_bookkeeping`: each underflow direction fails on an
empty entity/member, and a successful subtraction stores the difference. -/
theorem checked_bookkeeping_witness :
    Entity.sub_stake_intent ⟨EntityBalances.zero, 0, EntityState.Inactive⟩
        1 false = none ∧
    Entity.spt_sub ⟨EntityBalances.zero, 0, EntityState.Inactive⟩
        1 false = none ∧
    Entity.pending_sub ⟨EntityBalances.zero, 0, EntityState.Inactive⟩
        1 false = none ∧
    Member.stake_intent_did_withdraw
        ⟨0, ⟨⟨MemberBalances.zero⟩, ⟨MemberBalances.zero⟩⟩⟩ 1 false false
        = none ∧
    Entity.transfer_pending_withdrawal
        ⟨EntityBalances.zero, 0, EntityState.Inactive⟩ 1 [0] false = none ∧
    (Entity.withBalances ⟨{ EntityBalances.zero with stake_intent := 2 },
        0, EntityState.Inactive⟩
        { { EntityBalances.zero with stake_intent := 2 } with
          stake_intent := 1 }).stake_intent_of false + 1
      = (⟨{ EntityBalances.zero with stake_intent := 2 },
          0, EntityState.Inactive⟩ : Entity).stake_intent_of false :=
  ⟨(checked_bookkeeping ⟨EntityBalances.zero, 0, EntityState.Inactive⟩
      ⟨0, ⟨⟨MemberBalances.zero⟩, ⟨MemberBalances.zero⟩⟩⟩ 1 1 0 0
      false false).1 (by decide),
   (checked_bookkeeping ⟨EntityBalances.zero, 0, EntityState.Inactive⟩
      ⟨0, ⟨⟨MemberBalances.zero⟩, ⟨MemberBalances.zero⟩⟩⟩ 1 1 0 0
      false false).2.2.1 (by decide),
   (checked_bookkeeping ⟨EntityBalances.zero, 0, EntityState.Inactive⟩
      ⟨0, ⟨⟨MemberBalances.zero⟩, ⟨MemberBalances.zero⟩⟩⟩ 1 1 0 0
      false false).2.2.2.2.1 (by decide),
   (checked_bookkeeping ⟨EntityBalances.zero, 0, EntityState.Inactive⟩
      ⟨0, ⟨⟨MemberBalances.zero⟩, ⟨MemberBalances.zero⟩⟩⟩ 1 1 0 0
      false false).2.2.2.2.2.2.2.2.2.2.2.1 (Or.inl (by decide)),
   ((checked_bookkeeping ⟨EntityBalances.zero, 0, EntityState.Inactive⟩
      ⟨0, ⟨⟨MemberBalances.zero⟩, ⟨MemberBalances.zero⟩⟩⟩ 1 1 0 0
      false false).2.2.2.2.2.2.2.2.2.1 (by decide)) [0],
   (checked_bookkeeping ⟨{ EntityBalances.zero with stake_intent := 2 },
        0, EntityState.Inactive⟩
      ⟨0, ⟨⟨MemberBalances.zero⟩, ⟨MemberBalances.zero⟩⟩⟩ 1 1 0 0
      false false).2.1 _ (by decide)⟩

/-- Extensionality for entity balances. -/
lemma entity_balances_ext {b1 b2 : EntityBalances}
    (h1 : b1.spt_amount = b2.spt_amount)
    (h2 : b1.spt_mega_amount = b2.spt_mega_amount)
    (h3 : b1.pending_withdrawals = b2.pending_withdrawals)
    (h4 : b1.mega_pending_withdrawals = b2.mega_pending_withdrawals)
    (h5 : b1.stake_intent = b2.stake_intent)
    (h6 : b1.mega_stake_intent = b2.mega_stake_intent) : b1 = b2 := by
  cases b1; cases b2; simp_all

/-- A successful `Entity::remove` decreases each aggregate balance by the
sum of the member's main and delegate book entries and leaves `generation`
and `state` untouched. -/
lemma remove_some {e e' : Entity} {m : Member} (h : e.remove m = some e') :
    e'.balances.stake_intent + (m.books.main.balances.stake_intent
        + m.books.delegate.balances.stake_intent) = e.balances.stake_intent ∧
    e'.balances.mega_stake_intent + (m.books.main.balances.mega_stake_intent
        + m.books.delegate.balances.mega_stake_intent)
      = e.balances.mega_stake_intent ∧
    e'.balances.spt_amount + (m.books.main.balances.spt_amount
        + m.books.delegate.balances.spt_amount) = e.balances.spt_amount ∧
    e'.balances.spt_mega_amount + (m.books.main.balances.spt_mega_amount
        + m.books.delegate.balances.spt_mega_amount)
      = e.balances.spt_mega_amount ∧
    e'.balances.pending_withdrawals + (m.books.main.balances.pending_withdrawals
        + m.books.delegate.balances.pending_withdrawals)
      = e.balances.pending_withdrawals ∧
    e'.balances.mega_pending_withdrawals
        + (m.books.main.balances.mega_pending_withdrawals
           + m.books.delegate.balances.mega_pending_withdrawals)
      = e.balances.mega_pending_withdrawals ∧
    e'.generation = e.generation ∧ e'.state = e.state := by
  rw [Entity.remove] at h
  obtain ⟨e1, h1, h⟩ := bind_some_elim h
  obtain ⟨e2, h2, h⟩ := bind_some_elim h
  obtain ⟨e3, h3, h⟩ := bind_some_elim h
  obtain ⟨e4, h4, h⟩ := bind_some_elim h
  obtain ⟨e5, h5, h⟩ := bind_some_elim h
  obtain ⟨e6, h6, h⟩ := bind_some_elim h
  obtain ⟨e7, h7, h⟩ := bind_some_elim h
  obtain ⟨e8, h8, h⟩ := bind_some_elim h
  obtain ⟨e9, h9, h⟩ := bind_some_elim h
  obtain ⟨e10, h10, h⟩ := bind_some_elim h
  obtain ⟨e11, h11, h⟩ := bind_some_elim h
  rw [sub_stake_intent_srm] at h1
  obtain ⟨c1, rfl⟩ := opt_ite_some h1
  rw [sub_stake_intent_msrm] at h2
  obtain ⟨c2, rfl⟩ := opt_ite_some h2
  rw [spt_sub_srm] at h3
  obtain ⟨c3, rfl⟩ := opt_ite_some h3
  rw [spt_sub_msrm] at h4
  obtain ⟨c4, rfl⟩ := opt_ite_some h4
  rw [pending_sub_srm] at h5
  obtain ⟨c5, rfl⟩ := opt_ite_some h5
  rw [pending_sub_msrm] at h6
  obtain ⟨c6, rfl⟩ := opt_ite_some h6
  rw [sub_stake_intent_srm] at h7
  obtain ⟨c7, rfl⟩ := opt_ite_some h7
  rw [sub_stake_intent_msrm] at h8
  obtain ⟨c8, rfl⟩ := opt_ite_some h8
  rw [spt_sub_srm] at h9
  obtain ⟨c9, rfl⟩ := opt_ite_some h9
  rw [spt_sub_msrm] at h10
  obtain ⟨c10, rfl⟩ := opt_ite_some h10
  rw [pending_sub_srm] at h11
  obtain ⟨c11, rfl⟩ := opt_ite_some h11
  rw [pending_sub_msrm] at h
  obtain ⟨c12, rfl⟩ := opt_ite_some h
  simp only [Entity.withBalances] at c1 c2 c3 c4 c5 c6 c7 c8 c9 c10 c11 c12 ⊢
  refine ⟨?_, ?_, ?_, ?_, ?_, ?_, ?_, ?_⟩ <;> first | omega | trivial

/-- A successful `Entity::add` increases each aggregate balance by the sum
of the member's main and delegate book entries and leaves `generation` and
`state` untouched. -/
lemma add_some {e e' : Entity} {m : Member} (h : e.add m = some e') :
    e'.balances.stake_intent = e.balances.stake_intent
      + (m.books.main.balances.stake_intent
         + m.books.delegate.balances.stake_intent) ∧
    e'.balances.mega_stake_intent = e.balances.mega_stake_intent
      + (m.books.main.balances.mega_stake_intent
         + m.books.delegate.balances.mega_stake_intent) ∧
    e'.balances.spt_amount = e.balances.spt_amount
      + (m.books.main.balances.spt_amount
         + m.books.delegate.balances.spt_amount) ∧
    e'.balances.spt_mega_amount = e.balances.spt_mega_amount
      + (m.books.main.balances.spt_mega_amount
         + m.books.delegate.balances.spt_mega_amount) ∧
    e'.balances.pending_withdrawals = e.balances.pending_withdrawals
      + (m.books.main.balances.pending_withdrawals
         + m.books.delegate.balances.pending_withdrawals) ∧
    e'.balances.mega_pending_withdrawals = e.balances.mega_pending_withdrawals
      + (m.books.main.balances.mega_pending_withdrawals
         + m.books.delegate.balances.mega_pending_withdrawals) ∧
    e'.generation = e.generation ∧ e'.state = e.state := by
  rw [Entity.add] at h
  obtain ⟨e1, h1, h⟩ := bind_some_elim h
  obtain ⟨e2, h2, h⟩ := bind_some_elim h
  obtain ⟨e3, h3, h⟩ := bind_some_elim h
  obtain ⟨e4, h4, h⟩ := bind_some_elim h
  obtain ⟨e5, h5, h⟩ := bind_some_elim h
  obtain ⟨e6, h6, h⟩ := bind_some_elim h
  obtain ⟨e7, h7, h⟩ := bind_some_elim h
  obtain ⟨e8, h8, h⟩ := bind_some_elim h
  obtain ⟨e9, h9, h⟩ := bind_some_elim h
  obtain ⟨e10, h10, h⟩ := bind_some_elim h
  obtain ⟨e11, h11, h⟩ := bind_some_elim h
  rw [add_stake_intent_srm] at h1
  obtain ⟨c1, rfl⟩ := opt_ite_some h1
  rw [add_stake_intent_msrm] at h2
  obtain ⟨c2, rfl⟩ := opt_ite_some h2
  rw [spt_add_srm] at h3
  obtain ⟨c3, rfl⟩ := opt_ite_some h3
  rw [spt_add_msrm] at h4
  obtain ⟨c4, rfl⟩ := opt_ite_some h4
  rw [pending_add_srm] at h5
  obtain ⟨c5, rfl⟩ := opt_ite_some h5
  rw [pending_add_msrm] at h6
  obtain ⟨c6, rfl⟩ := opt_ite_some h6
  rw [add_stake_intent_srm] at h7
  obtain ⟨c7, rfl⟩ := opt_ite_some h7
  rw [add_stake_intent_msrm] at h8
  obtain ⟨c8, rfl⟩ := opt_ite_some h8
  rw [spt_add_srm] at h9
  obtain ⟨c9, rfl⟩ := opt_ite_some h9
  rw [spt_add_msrm] at h10
  obtain ⟨c10, rfl⟩ := opt_ite_some h10
  rw [pending_add_srm] at h11
  obtain ⟨c11, rfl⟩ := opt_ite_some h11
  rw [pending_add_msrm] at h
  obtain ⟨c12, rfl⟩ := opt_ite_some h
  simp only [Entity.withBalances] at c1 c2 c3 c4 c5 c6 c7 c8 c9 c10 c11 c12 ⊢
  refine ⟨?_, ?_, ?_, ?_, ?_, ?_, ?_, ?_⟩ <;> first | omega | trivial

/-- C10: `Entity::remove(member)` followed by `Entity::add(member)` — and
likewise `add` followed by `remove` — restores all six entity balance
fields whenever neither composite under- or overflows: add and remove are
exact inverses, so switching entities conserves aggregate balances. -/
theorem switch_entity_add_remove_inverse (e : Entity) (m : Member) :
    (∀ e1 e2, e.remove m = some e1 → e1.add m = some e2 →
      e2.balances = e.balances) ∧
    (∀ e1 e2, e.add m = some e1 → e1.remove m = some e2 →
      e2.balances = e.balances) := by
  constructor <;> intro e1 e2 h1 h2
  · obtain ⟨r1, r2, r3, r4, r5, r6, -, -⟩ := remove_some h1
    obtain ⟨a1, a2, a3, a4, a5, a6, -, -⟩ := add_some h2
    exact entity_balances_ext (by omega) (by omega) (by omega) (by omega)
      (by omega) (by omega)
  · obtain ⟨a1, a2, a3, a4, a5, a6, -, -⟩ := add_some h1
    obtain ⟨r1, r2, r3, r4, r5, r6, -, -⟩ := remove_some h2
    exact entity_balances_ext (by omega) (by omega) (by omega) (by omega)
      (by omega) (by omega)

/-- Witness for `switch_entity_add_remove_inverse` at a concrete entity
and member with non-trivial balances on both books. -/
theorem switch_entity_add_remove_inverse_witness :
    (⟨⟨1, 2, 3, 4, 5, 6⟩, 7, EntityState.Active⟩ : Entity).balances
        = (⟨⟨1, 2, 3, 4, 5, 6⟩, 7, EntityState.Active⟩ : Entity).balances ∧
    (⟨⟨11, 2, 3, 4, 5, 6⟩, 7, EntityState.Active⟩ : Entity).balances
        = (⟨⟨11, 2, 3, 4, 5, 6⟩, 7, EntityState.Active⟩ : Entity).balances :=
  ⟨(switch_entity_add_remove_inverse
      ⟨⟨1, 2, 3, 4, 5, 6⟩, 7, EntityState.Active⟩
      ⟨0, ⟨⟨{ MemberBalances.zero with spt_amount := 1, stake_intent := 2 }⟩,
           ⟨{ MemberBalances.zero with spt_mega_amount := 1 }⟩⟩⟩).1
      ⟨⟨0, 1, 3, 4, 3, 6⟩, 7, EntityState.Active⟩
      ⟨⟨1, 2, 3, 4, 5, 6⟩, 7, EntityState.Active⟩
      (by decide) (by decide),
   (switch_entity_add_remove_inverse
      ⟨⟨11, 2, 3, 4, 5, 6⟩, 7, EntityState.Active⟩
      ⟨0, ⟨⟨{ MemberBalances.zero with spt_amount := 1, stake_intent := 2 }⟩,
           ⟨{ MemberBalances.zero with spt_mega_amount := 1 }⟩⟩⟩).2
      ⟨⟨12, 3, 3, 4, 7, 6⟩, 7, EntityState.Active⟩
      ⟨⟨11, 2, 3, 4, 5, 6⟩, 7, EntityState.Active⟩
      (by decide) (by decide)⟩

/-- A member with every balance zero (the `Default` member), generation 0. -/
def memberEmpty : Member := ⟨0, ⟨⟨MemberBalances.zero⟩, ⟨MemberBalances.zero⟩⟩⟩

/-- A member holding 5 SPT in its main book, generation 0. -/
def memberWithSpt : Member :=
  ⟨0, ⟨⟨{ MemberBalances.zero with spt_amount := 5 }⟩, ⟨MemberBalances.zero⟩⟩⟩

/-- An entity of generation 1 with zero balances. -/
def entityGen1 : Entity := ⟨EntityBalances.zero, 1, EntityState.Inactive⟩

/-- C4: the claim that `stake_is_empty()` is true iff all four SPT fields
are zero fails on the code: the function returns `false` for the all-zero
member and `true` for a member holding SPT — it computes the negation of
emptiness (contradicting its name, the `Balances::is_empty` convention in
the same file, and the stale-stake comment at its call site). -/
theorem stake_is_empty_inverted :
    memberEmpty.stake_is_empty = false
      ∧ memberWithSpt.stake_is_empty = true := by
  decide

/-- C3: evaluating the stale-stake access check of the stake handler at the
failing inputs: a member of an older generation with all-zero SPT balances
is rejected with `StaleStakeNeedsWithdrawal`, while a member of an older
generation still holding SPT passes — the inverse of the claimed (and
commented) behavior, caused by the inverted `stake_is_empty`. -/
theorem stale_stake_check_inverted :
    stake_generation_check memberEmpty entityGen1
        = Except.error RegistryError.StaleStakeNeedsWithdrawal ∧
    stake_generation_check memberWithSpt entityGen1 = Except.ok () :=
  ⟨rfl, rfl⟩

/-- A concrete stake context: SRM basket `[1]`; MSRM basket `[1, 0]`
(1 SRM and 0 MSRM per mega pool token). -/
def ctxExample : StakeContext := ⟨⟨[1]⟩, ⟨[1, 0]⟩⟩

/-- A registrar with activation threshold 1 and 5-second timelocks. -/
def registrarExample : Registrar := ⟨1, 5, 5⟩

/-- An entity in `PendingDeactivation { 0, 10 }` holding one mega SPT. -/
def entityPending : Entity :=
  ⟨{ EntityBalances.zero with spt_mega_amount := 1 }, 1,
   EntityState.PendingDeactivation 0 10⟩

/-- C2: code-bug evidence — on an entity in `PendingDeactivation` whose
activation requirements hold, `transition_activation_if_needed` leaves the
state in `PendingDeactivation` before the deadline and moves it to
`Inactive` after, never back to `Active` as claimed (and as the
`EntityState` doc comment's FSM declares); the requirements are not
re-evaluated in this state. -/
theorem pending_deactivation_never_reactivates :
    entityPending.meets_activation_requirements ctxExample registrarExample
        = some true ∧
    entityPending.state = EntityState.PendingDeactivation 0 10 ∧
    entityPending.transition_activation_if_needed ctxExample
        registrarExample ⟨5⟩ = some entityPending ∧
    entityPending.transition_activation_if_needed ctxExample
        registrarExample ⟨11⟩
      = some { entityPending with state := EntityState.Inactive } := by
  decide

/-- C7 counterexample: with the mega basket `[1, 0]` and one pool token the
code returns 1 SRM, not the spec's
`quantity[0] * spt_count * 1_000_000 + quantity[1] * spt_count = 1_000_000`. -/
theorem srm_equivalent_claim_counterexample :
    StakeContext.srm_equivalent ctxExample 1 true = some 1 ∧
    ¬ StakeContext.srm_equivalent ctxExample 1 true
        = some (i64_as_u64 (ctxExample.mega_basket.quantities.getD 0 0)
            * 1 * 1000000
          + i64_as_u64 (ctxExample.mega_basket.quantities.getD 1 0) * 1) := by
  decide

/-- C7 (amended): `srm_equivalent(spt, false)` is `spt * quantities[0]` and
`srm_equivalent(spt, true)` is
`spt * quantities[0] + spt * quantities[1] * 1_000_000` — the 1_000_000
factor multiplies the second (MSRM) mega-basket quantity, not the first. -/
theorem srm_equivalent_formula (ctx : StakeContext) (spt v : Nat) :
    (ctx.srm_equivalent spt false = some v →
      v = spt * i64_as_u64 (ctx.basket.quantities.getD 0 0)) ∧
    (ctx.srm_equivalent spt true = some v →
      v = spt * i64_as_u64 (ctx.mega_basket.quantities.getD 0 0)
        + spt * i64_as_u64 (ctx.mega_basket.quantities.getD 1 0) * 1000000) := by
  constructor <;> intro h
  · rw [StakeContext.srm_equivalent, if_neg (by decide)] at h
    obtain ⟨q0, hq0, h⟩ := bind_some_elim h
    rw [u64mul] at h
    obtain ⟨-, hv⟩ := opt_ite_some h
    simp only [List.getD, hq0, Option.getD_some]
    exact hv.symm
  · rw [StakeContext.srm_equivalent, if_pos rfl] at h
    obtain ⟨q0, hq0, h⟩ := bind_some_elim h
    obtain ⟨a, ha, h⟩ := bind_some_elim h
    obtain ⟨q1, hq1, h⟩ := bind_some_elim h
    obtain ⟨b, hb, h⟩ := bind_some_elim h
    obtain ⟨c, hc, h⟩ := bind_some_elim h
    rw [u64mul] at ha hb hc
    rw [u64add] at h
    obtain ⟨-, rfl⟩ := opt_ite_some ha
    obtain ⟨-, rfl⟩ := opt_ite_some hb
    obtain ⟨-, rfl⟩ := opt_ite_some hc
    obtain ⟨-, hv⟩ := opt_ite_some h
    simp only [List.getD, hq0, hq1, Option.getD_some]
    exact hv.symm

/-- Witness for `srm_equivalent_formula` at the concrete context. -/
theorem srm_equivalent_formula_witness :
    ((5 : Nat) = 5 * i64_as_u64 (ctxExample.basket.quantities.getD 0 0)) ∧
    ((1 : Nat) = 1 * i64_as_u64 (ctxExample.mega_basket.quantities.getD 0 0)
      + 1 * i64_as_u64 (ctxExample.mega_basket.quantities.getD 1 0)
        * 1000000) :=
  ⟨(srm_equivalent_formula ctxExample 5 5).1 (by decide),
   (srm_equivalent_formula ctxExample 1 1).2 (by decide)⟩

/-- `optionMapList` over checked multiplications: the whole map succeeds
with the list of products iff every product is within the u64 range. -/
lemma optionMapList_u64mul (spt : Nat) (l : List Int) :
    optionMapList (fun q => u64mul (i64_as_u64 q) spt) l =
      if l.all (fun q => decide (i64_as_u64 q * spt < U64MOD)) then
        some (l.map (fun q => i64_as_u64 q * spt))
      else none := by
  induction l with
  | nil => simp [optionMapList]
  | cons q qs ih =>
    simp only [optionMapList, ih, List.all_cons, List.map_cons]
    simp only [u64mul]
    split_ifs <;> simp_all
    all_goals
      first
        | omega
        | (obtain ⟨x, hx, hge⟩ := ‹∃ x ∈ qs, U64MOD ≤ i64_as_u64 x * spt›
           exact absurd (‹∀ x ∈ qs, i64_as_u64 x * spt < U64MOD› x hx)
             (by omega))

/-- C8: `basket_quantities` multiplies every quantity of the selected
basket by `spt_count`, returning the product vector when each product fits
in a u64 and failing with `CheckedFailure` as soon as any multiplication
overflows — never wrapping or saturating. -/
theorem basket_quantities_checked (ctx : StakeContext) (spt : Nat)
    (mega : Bool) :
    ctx.basket_quantities spt mega =
      if (if mega then ctx.mega_basket else ctx.basket).quantities.all
          (fun q => decide (i64_as_u64 q * spt < U64MOD)) then
        Except.ok ((if mega then ctx.mega_basket else ctx.basket).quantities.map
          (fun q => i64_as_u64 q * spt))
      else Except.error RegistryError.CheckedFailure := by
  simp only [StakeContext.basket_quantities, optionMapList_u64mul]
  split_ifs <;> simp

/-- C9: the end-stake-withdrawal handler fails with
`WithdrawalTimelockNotPassed` and leaves the receipt unchanged whenever
`clock.unix_timestamp < end_ts`; at or after `end_ts` the timelock check
passes and the handler proceeds to the payout state transition. -/
theorem end_stake_withdrawal_timelock (clock : Clock)
    (pw : PendingWithdrawal) (delegate : Bool) :
    (clock.unix_timestamp < pw.end_ts →
      end_stake_withdrawal_handler clock pw delegate
        = (Except.error RegistryError.WithdrawalTimelockNotPassed, pw)) ∧
    (pw.end_ts ≤ clock.unix_timestamp →
      end_stake_withdrawal_access_control clock pw = Except.ok () ∧
      ∀ pw', end_stake_withdrawal_state_transition pw delegate
          = Except.ok pw' →
        end_stake_withdrawal_handler clock pw delegate
          = (Except.ok (), pw')) := by
  constructor
  · intro h
    simp [end_stake_withdrawal_handler, end_stake_withdrawal_access_control, h]
  · intro h
    have hac : end_stake_withdrawal_access_control clock pw = Except.ok () := by
      simp [end_stake_withdrawal_access_control, not_lt.mpr h]
    refine ⟨hac, fun pw' hst => ?_⟩
    simp [end_stake_withdrawal_handler, hac, hst]

/-- An unburned pending withdrawal maturing at time 100 with a main leg. -/
def pwExample : PendingWithdrawal := ⟨false, 100, ⟨1, 0⟩, ⟨0, 0⟩⟩

/-- Witness for `end_stake_withdrawal_timelock`: one tick early fails and
leaves the receipt unchanged; exactly at `end_ts` the check passes and the
receipt is paid out and burned. -/
theorem end_stake_withdrawal_timelock_witness :
    end_stake_withdrawal_handler ⟨99⟩ pwExample false
        = (Except.error RegistryError.WithdrawalTimelockNotPassed,
           pwExample) ∧
    end_stake_withdrawal_access_control ⟨100⟩ pwExample = Except.ok () ∧
    end_stake_withdrawal_handler ⟨100⟩ pwExample false
        = (Except.ok (), { pwExample with burned := true }) :=
  ⟨(end_stake_withdrawal_timelock ⟨99⟩ pwExample false).1 (by decide),
   ((end_stake_withdrawal_timelock ⟨100⟩ pwExample false).2 (by decide)).1,
   ((end_stake_withdrawal_timelock ⟨100⟩ pwExample false).2 (by decide)).2
     { pwExample with burned := true } rfl⟩

end Serum
